import Mathlib

/-!
Verification of the SHDLC (Sensirion serial link-layer) driver of this
repository: frame byte-stuffing, checksums, MOSI frame building, MISO frame
decoding, the command-execution unit's lock discipline, the device facade's
auto-cleaning-interval validation and the meter's measure-recovery logic.
All definitions are shallow embeddings of the Python source in
`src/device/dev_serial_sps30.py` (and, where noted, of the response-frame
builder in `src/diagnostics/uart_aq_sensirion_sps30_tests.py`); bytes are
modelled as `Nat` values, byte strings as `List Nat`, raised exceptions as
`Except` / `Option` error values.
-/

set_option maxRecDepth 8000

namespace SPS30

/-- The `Command` namedtuple: code, human name, direction kind, response
timeout in milliseconds, minimal firmware version `(major, minor)`. -/
structure Command where
  code : Nat
  name : String
  kind : String
  timeout_ms : Nat
  min_version : Nat × Nat
deriving DecidableEq

def CMD_START : Command := ⟨0x00, "Start Measurement", "Execute", 20, (1, 0)⟩
def CMD_STOP : Command := ⟨0x01, "Stop Measurement", "Execute", 20, (1, 0)⟩
def CMD_MEASURE : Command := ⟨0x03, "Read Measured Value", "Read", 20, (1, 0)⟩
def CMD_SLEEP : Command := ⟨0x10, "Sleep", "Execute", 5, (2, 0)⟩
def CMD_WAKEUP : Command := ⟨0x11, "Wake-up", "Execute", 5, (2, 0)⟩
def CMD_CLEAN : Command := ⟨0x56, "Start Fan Cleaning", "Execute", 20, (1, 0)⟩
def CMD_SET_AUTO_CLEAN : Command :=
  ⟨0x80, "Read/Write Auto Cleaning Interval", "Read / Write", 20, (1, 0)⟩
def CMD_INFO : Command := ⟨0xD0, "Device Information", "Read", 20, (1, 0)⟩
def CMD_VERSION : Command := ⟨0xD1, "Read Version", "Read", 20, (1, 0)⟩
def CMD_STATUS : Command := ⟨0xD2, "Read Device Status Register", "Read", 20, (2, 2)⟩
def CMD_RESET : Command := ⟨0xD3, "Reset", "Execute", 20, (1, 0)⟩

/-- The `COMMANDS` tuple: the full command catalog. -/
def COMMANDS : List Command :=
  [CMD_START, CMD_STOP, CMD_MEASURE, CMD_SLEEP, CMD_WAKEUP, CMD_CLEAN,
   CMD_SET_AUTO_CLEAN, CMD_INFO, CMD_VERSION, CMD_STATUS, CMD_RESET]

/-- The `ERRORS` dict: device error code to human-readable text. -/
def ERRORS (code : Nat) : Option String :=
  if code = 0x01 then some "Wrong data length for this command (too much or little data)"
  else if code = 0x02 then some "Unknown command"
  else if code = 0x03 then some "No access right for command"
  else if code = 0x04 then some "Illegal command parameter or parameter out of allowed range"
  else if code = 0x28 then some "Internal function argument out of range"
  else if code = 0x43 then some "Command not allowed in current state"
  else none

def FRAME_START : Nat := 0x7E
def FRAME_SLAVE_ADR : Nat := 0x00
def FRAME_STOP : Nat := FRAME_START

def BYTES_STUFFING_START_BYTE : Nat := 0x7D

/-- `BYTES_STUFFING_MAP`: the four reserved byte values and their two-byte
escape sequences. -/
def BYTES_STUFFING_MAP (b : Nat) : Option (List Nat) :=
  if b = 0x7E then some [BYTES_STUFFING_START_BYTE, 0x5E]
  else if b = 0x7D then some [BYTES_STUFFING_START_BYTE, 0x5D]
  else if b = 0x11 then some [BYTES_STUFFING_START_BYTE, 0x31]
  else if b = 0x13 then some [BYTES_STUFFING_START_BYTE, 0x33]
  else none

/-- `BYTES_UNSTUFFING_MAP`: continuation byte of an escape sequence back to
the original byte (inverted from `BYTES_STUFFING_MAP`). -/
def BYTES_UNSTUFFING_MAP (c : Nat) : Option Nat :=
  if c = 0x5E then some 0x7E
  else if c = 0x5D then some 0x7D
  else if c = 0x31 then some 0x11
  else if c = 0x33 then some 0x13
  else none

/-- The per-byte branch of `stuffing`: `BYTES_STUFFING_MAP[b] if b in
BYTES_STUFFING_MAP else [b]`. -/
def stuffByte (b : Nat) : List Nat := (BYTES_STUFFING_MAP b).getD [b]

/-- `stuffing(data)`: `reduce(lambda x, y: x + y, [...], [])` over the
per-byte escape expansions. -/
def stuffing (data : List Nat) : List Nat :=
  (data.map stuffByte).foldl (fun x y => x ++ y) []

/-- State-passing reading of the `unstuffing` comprehension: `p` is the
predecessor byte in the original input (`none` at the start); an element equal
to the escape byte is dropped; an element preceded by the escape byte is
looked up in `BYTES_UNSTUFFING_MAP` (a missing key — Python `KeyError` —
makes the whole computation fail, i.e. `none`); any other element is kept. -/
def unstuffingAux (p : Option Nat) : List Nat → Option (List Nat)
  | [] => some []
  | c :: rest =>
    if c = BYTES_STUFFING_START_BYTE then
      unstuffingAux (some c) rest
    else if p = some BYTES_STUFFING_START_BYTE then
      match BYTES_UNSTUFFING_MAP c with
      | none => none
      | some o => (unstuffingAux (some c) rest).map (fun t => o :: t)
    else
      (unstuffingAux (some c) rest).map (fun t => c :: t)

/-- `unstuffing(data)`; `none` models the `KeyError` escaping the list
comprehension on an unrecognized escape continuation. -/
def unstuffing (data : List Nat) : Option (List Nat) :=
  unstuffingAux none data

/-- `checksum(data) = 0xFF - (sum(data) % 0x100)`. -/
def checksum (data : List Nat) : Nat := 0xFF - (data.sum % 0x100)

namespace MOSIFrame

/-- `ValueError` raised by `MOSIFrame.__init__` on over-long payload. -/
inductive InitError
  | valueError
deriving DecidableEq

/-- `MOSIFrame.__init__`: rejects payloads longer than 255 bytes, otherwise
just stores the command and payload. -/
def init (command : Command) (data : List Nat) : Except InitError (Command × List Nat) :=
  if data.length > 255 then .error .valueError else .ok (command, data)

/-- `MOSIFrame.get_frame()`: start byte, slave address, raw command code,
stuffed length byte, stuffed payload, stuffed checksum byte, stop byte. -/
def get_frame (command : Command) (data : List Nat) : List Nat :=
  [FRAME_START, FRAME_SLAVE_ADR, command.code]
    ++ stuffing [data.length]
    ++ stuffing data
    ++ stuffing [checksum ([FRAME_SLAVE_ADR, command.code, data.length] ++ data)]
    ++ [FRAME_STOP]

end MOSIFrame

/-- Errors raised by `MISOFrame.__init__`, mirroring the exception taxonomy:
`NoDataInResponse`, `ResponseFrameError` (with a short tag for the message),
`DeviceError`, `ResponseError` (device error code and resolved reason text)
and `CommandNotAllowed`. -/
inductive DecErr
  | noDataInResponse
  | responseFrameError (msg : String)
  | deviceError
  | responseError (code : Nat) (reason : String)
  | commandNotAllowed
deriving DecidableEq

/-- A successfully decoded MISO frame: resolved command, raw state byte and
payload data, as stored on the `MISOFrame` object. -/
structure Miso where
  command : Command
  state : Nat
  data : List Nat
deriving DecidableEq

/-- `{cmd.code: cmd for cmd in COMMANDS}.get(code)`: command lookup by code
(codes in the catalog are pairwise distinct, so dict and first-match agree). -/
def commandOfCode (code : Nat) : Option Command :=
  COMMANDS.find? (fun c => c.code == code)

/-- The commands allowed to report the device-error status bit without it
being escalated: `(CMD_STATUS, CMD_VERSION, CMD_INFO, CMD_SLEEP, CMD_WAKEUP)`. -/
def statusAllowedCommands : List Command :=
  [CMD_STATUS, CMD_VERSION, CMD_INFO, CMD_SLEEP, CMD_WAKEUP]

/-- Structural phase of `MISOFrame.__init__`: emptiness, minimal length,
start byte, slave address and stop byte checks, then un-stuffing of the bytes
between the delimiters; returns `frame_bytes`. -/
def misoStructural (raw : List Nat) : Except DecErr (List Nat) :=
  if raw.length = 0 then .error .noDataInResponse
  else if raw.length < 7 then .error (.responseFrameError "too short")
  else if raw.head?.getD 0 ≠ FRAME_START then .error (.responseFrameError "bad start byte")
  else if raw.getD 1 0 ≠ FRAME_SLAVE_ADR then .error (.responseFrameError "bad slave address")
  else if raw.getLast?.getD 0 ≠ FRAME_STOP then .error (.responseFrameError "bad stop byte")
  else
    match unstuffing (raw.drop 1).dropLast with
    | none => .error (.responseFrameError "incorrect byte-stuffing")
    | some mid => .ok (raw.head?.getD 0 :: mid ++ [raw.getLast?.getD 0])

/-- The `_state` local of `MISOFrame.__init__` after the optional clearing of
the device-error bit: `frame_bytes[3]`, with bit 7 masked away when set. -/
def misoState2 (fb : List Nat) : Nat :=
  if fb.getD 3 0 &&& 2 ^ 7 ≠ 0 then fb.getD 3 0 &&& (2 ^ 7 - 1) else fb.getD 3 0

/-- Interpretation phase of `MISOFrame.__init__` on `frame_bytes` once the
command is resolved: state-byte interpretation (device-error bit, error
codes), declared data length checks, payload extraction and checksum
verification. -/
def misoInterpCmd (fb : List Nat) (command : Command) : Except DecErr Miso :=
  if fb.getD 3 0 &&& 2 ^ 7 ≠ 0 ∧ command ∉ statusAllowedCommands then
    .error .deviceError
  else if misoState2 fb ≠ 0 then
    if misoState2 fb ≠ 0x43 then
      .error (.responseError (misoState2 fb) ((ERRORS (misoState2 fb)).getD "Unknown error"))
    else .error .commandNotAllowed
  else if ¬ fb.getD 4 0 ≤ 255 then .error (.responseFrameError "data length out of bounds")
  else if (fb.length : Int) - (fb.getD 4 0 : Int) ≠ 7 then
    .error (.responseFrameError "data length mismatch")
  else if fb.dropLast.getLast?.getD 0 ≠ checksum ((fb.drop 1).dropLast.dropLast) then
    .error (.responseFrameError "wrong checksum")
  else .ok ⟨command, fb.getD 3 0, (fb.drop 5).take (fb.getD 4 0)⟩

/-- Interpretation phase of `MISOFrame.__init__` on `frame_bytes`: command
lookup by `frame_bytes[2]`, then `misoInterpCmd`. -/
def misoInterp (fb : List Nat) : Except DecErr Miso :=
  match commandOfCode (fb.getD 2 0) with
  | none => .error (.responseFrameError "invalid command code")
  | some command => misoInterpCmd fb command

/-- Full `MISOFrame.__init__` as a function from the raw received bytes to a
decoded frame or the raised error. -/
def misoDecode (raw : List Nat) : Except DecErr Miso :=
  (misoStructural raw).bind misoInterp

/-- `SimulatedResponseFrame.get_frame_bytes` from the repository's test suite
(`src/diagnostics/uart_aq_sensirion_sps30_tests.py`): the inbound (MISO
layout) encoding of a command, state byte and payload. -/
def SimulatedResponseFrame_get_frame_bytes (command : Command) (state : Nat)
    (data : List Nat) : List Nat :=
  [FRAME_START, FRAME_SLAVE_ADR, command.code, state]
    ++ stuffing [data.length]
    ++ stuffing data
    ++ stuffing [checksum ([FRAME_SLAVE_ADR, command.code, state, data.length] ++ data)]
    ++ [FRAME_STOP]

/-- Value of the Python guard expression `2 ^ 32` in
`WriteAutoCleaningInterval.__init__`: Python `^` on integers is bitwise xor,
so this evaluates to 34, not to 2 to the power 32. -/
def pythonTwoCaretThirtyTwo : Nat := Nat.xor 2 32

/-- Python `v.to_bytes(4, byteorder='big')` for `0 ≤ v < 2 ** 32`. -/
def toBytes4BE (v : Nat) : List Nat :=
  [v / 0x1000000 % 0x100, v / 0x10000 % 0x100, v / 0x100 % 0x100, v % 0x100]

/-- `ConfigurationError` raised by `WriteAutoCleaningInterval.__init__`. -/
inductive WacError
  | configurationError
deriving DecidableEq

/-- `WriteAutoCleaningInterval.__init__`: validates the interval against the
guard `ac_interval_s <= 0 or ac_interval_s >= 2 ^ 32` (xor!) and, on success,
forms the command and payload handed to `CommandExecution.__init__`. -/
def WriteAutoCleaningInterval_init (ac_interval_s : Int) :
    Except WacError (Command × List Nat) :=
  if ac_interval_s ≤ 0 ∨ ac_interval_s ≥ (pythonTwoCaretThirtyTwo : Int) then
    .error .configurationError
  else
    .ok (CMD_SET_AUTO_CLEAN, 0x00 :: toBytes4BE ac_interval_s.toNat)

/-- Outcome of `self._device.write(...)` in `CommandExecution.run`. -/
inductive WriteOutcome
  | ok
  | timeout
deriving DecidableEq

/-- Outcome of `self._device.read_all()` in `CommandExecution.run`. -/
inductive ReadAllOutcome
  | ok (bs : List Nat)
  | timeout
deriving DecidableEq

/-- The behavior of the transport during one `CommandExecution.run`. -/
structure RunEnv where
  write_outcome : WriteOutcome
  read_outcome : ReadAllOutcome
deriving DecidableEq

/-- The stored failure of a command execution: either a
`DeviceCommunicationError` (transport timeout) or a captured `SHDLCError`
from decoding. -/
inductive RunError
  | deviceCommunicationError
  | shdlc (e : DecErr)
deriving DecidableEq

/-- Observable state of a `CommandExecution` once `run` has returned:
whether `self._device_lock` is still held, the stored `self._error` and the
stored `self._miso`. -/
structure RunResult where
  lock_held_at_end : Bool
  error : Option RunError
  miso : Option Miso
deriving DecidableEq

/-- `CommandExecution.run` for the base class (empty `_prepare` hook),
modelling the lock and error discipline: the device lock is acquired
unconditionally at the start; on a write timeout the method stores a
communication error and returns from inside the `except` branch; otherwise it
reads, decodes (capturing any `SHDLCError`) or stores a read-timeout error,
and then calls `self._device_lock.release()`. The frame content written does
not influence this control flow. -/
def CommandExecution_run (env : RunEnv) : RunResult :=
  match env.write_outcome with
  | .timeout =>
    { lock_held_at_end := true, error := some .deviceCommunicationError, miso := none }
  | .ok =>
    match env.read_outcome with
    | .timeout =>
      { lock_held_at_end := false, error := some .deviceCommunicationError, miso := none }
    | .ok bs =>
      match misoDecode bs with
      | .ok m => { lock_held_at_end := false, error := none, miso := some m }
      | .error e =>
        { lock_held_at_end := false, error := some (.shdlc e), miso := none }

/-- Python tuple comparison `a < b` on two-element version tuples, as used by
`ParticulateMatterMeter._validate_command`. -/
def version_lt (a b : Nat × Nat) : Bool :=
  a.1 < b.1 || (a.1 == b.1 && a.2 < b.2)

/-- Outcome of one `read_measured_values().get_miso().interpret_data()` call
against the device, as seen by `ParticulateMatterMeter.measure`. -/
inductive ReadResult
  | meas (m : Nat)
  | noNew
  | noData
  | failOther
deriving DecidableEq

/-- Outcome of one `start_measurement()` or `wake_up()` call against the
device. -/
inductive ExecResult
  | ok
  | notAllowed
  | failOther
deriving DecidableEq

/-- A command issued to the sensor facade by the meter during `measure`. -/
inductive SensorOp
  | read
  | start
  | wake
deriving DecidableEq

/-- Result of `ParticulateMatterMeter.measure`: the returned measurement or
the exception propagated to the caller; `outOfFuel` / `envExhausted` are
artefacts of the finite model (recursion fuel, finite response scripts). -/
inductive MeasureOutcome
  | ok (m : Nat)
  | errNoNew
  | errNoData
  | errNotAllowed
  | errNotSupported
  | errOther
  | outOfFuel
  | envExhausted
deriving DecidableEq

/-- Scripted device behavior for the meter model: the cached firmware
version (used by `_validate_command`) and the successive outcomes the device
produces for read-measured-values, start-measurement and wake-up commands. -/
structure MeterEnv where
  fw : Nat × Nat
  reads : List ReadResult
  starts : List ExecResult
  wakes : List ExecResult
deriving DecidableEq

/-- `ParticulateMatterMeter.measure` over a scripted device, returning the
outcome together with the ordered trace of commands issued to the sensor.
Mirrors the source: validate `CMD_MEASURE`, read; on `NoDataInResponse`
validate `CMD_WAKEUP`, wake and recurse; on `NoNewMeasurement` validate
`CMD_START`, start once — re-raising the original `NoNewMeasurement` if the
start is rejected with `CommandNotAllowed` — then a single follow-up read
whose own failures propagate; any other failure propagates directly. -/
def measure : Nat → MeterEnv → MeasureOutcome × List SensorOp
  | 0, _ => (.outOfFuel, [])
  | fuel + 1, env =>
    if version_lt env.fw CMD_MEASURE.min_version then (.errNotSupported, [])
    else
      match env.reads with
      | [] => (.envExhausted, [])
      | r :: reads1 =>
        match r with
        | .meas m => (.ok m, [.read])
        | .failOther => (.errOther, [.read])
        | .noData =>
          if version_lt env.fw CMD_WAKEUP.min_version then (.errNotSupported, [.read])
          else
            match env.wakes with
            | [] => (.envExhausted, [.read])
            | w :: wakes1 =>
              match w with
              | .notAllowed => (.errNotAllowed, [.read, .wake])
              | .failOther => (.errOther, [.read, .wake])
              | .ok =>
                let res := measure fuel { env with reads := reads1, wakes := wakes1 }
                (res.1, .read :: .wake :: res.2)
        | .noNew =>
          if version_lt env.fw CMD_START.min_version then (.errNotSupported, [.read])
          else
            match env.starts with
            | [] => (.envExhausted, [.read])
            | s :: _ =>
              match s with
              | .notAllowed => (.errNoNew, [.read, .start])
              | .failOther => (.errOther, [.read, .start])
              | .ok =>
                match reads1 with
                | [] => (.envExhausted, [.read, .start])
                | r2 :: _ =>
                  match r2 with
                  | .meas m => (.ok m, [.read, .start, .read])
                  | .noNew => (.errNoNew, [.read, .start, .read])
                  | .noData => (.errNoData, [.read, .start, .read])
                  | .failOther => (.errOther, [.read, .start, .read])

/-- Escape mapping written out exactly as the specification's wire-format
section states it, used to compare the source's `stuffing` against the spec. -/
def specEscape (b : Nat) : List Nat :=
  if b = 0x7E then [0x7D, 0x5E]
  else if b = 0x7D then [0x7D, 0x5D]
  else if b = 0x11 then [0x7D, 0x31]
  else if b = 0x13 then [0x7D, 0x33]
  else [b]

/-- Byte-stuffing as the specification words it: each byte replaced by its
escape expansion, concatenated in order. -/
def specStuff (bs : List Nat) : List Nat := (bs.map specEscape).flatten

/-- The checksum formula as the specification words it:
`0xFF - (ADDR + CMD + LEN + sum(DATA)) mod 256` over the un-stuffed bytes. -/
def specChk (cmdCode len : Nat) (data : List Nat) : Nat :=
  0xFF - ((FRAME_SLAVE_ADR + cmdCode + len + data.sum) % 256)

lemma foldl_append_eq (l : List (List Nat)) :
    ∀ acc : List Nat, l.foldl (fun x y => x ++ y) acc = acc ++ l.foldl (fun x y => x ++ y) [] := by
  induction l with
  | nil => intro acc; simp
  | cons h t ih =>
    intro acc
    rw [List.foldl_cons, List.foldl_cons, ih (acc ++ h), ih ([] ++ h)]
    simp

lemma stuffing_nil : stuffing [] = [] := rfl

lemma stuffing_cons (b : Nat) (x : List Nat) :
    stuffing (b :: x) = stuffByte b ++ stuffing x := by
  unfold stuffing
  rw [List.map_cons, List.foldl_cons, foldl_append_eq]
  simp

lemma stuffByte_eq_specEscape (b : Nat) : stuffByte b = specEscape b := by
  unfold stuffByte specEscape BYTES_STUFFING_MAP BYTES_STUFFING_START_BYTE
  by_cases h1 : b = 0x7E <;> by_cases h2 : b = 0x7D <;>
    by_cases h3 : b = 0x11 <;> by_cases h4 : b = 0x13 <;>
    simp [h1, h2, h3, h4]

lemma stuffByte_plain {b : Nat}
    (h1 : b ≠ 0x7E) (h2 : b ≠ 0x7D) (h3 : b ≠ 0x11) (h4 : b ≠ 0x13) :
    stuffByte b = [b] := by
  unfold stuffByte BYTES_STUFFING_MAP
  simp [h1, h2, h3, h4]

lemma stuffByte_length_pos (b : Nat) : 1 ≤ (stuffByte b).length := by
  rw [stuffByte_eq_specEscape]
  unfold specEscape
  by_cases h1 : b = 0x7E <;> by_cases h2 : b = 0x7D <;>
    by_cases h3 : b = 0x11 <;> by_cases h4 : b = 0x13 <;>
    simp [h1, h2, h3, h4]

lemma stuffing_length_ge (x : List Nat) : x.length ≤ (stuffing x).length := by
  induction x with
  | nil => simp [stuffing_nil]
  | cons b t ih =>
    rw [stuffing_cons]
    simp only [List.length_cons, List.length_append]
    have := stuffByte_length_pos b
    omega

lemma unstuffingAux_nil (p : Option Nat) : unstuffingAux p [] = some [] := rfl

lemma unstuffingAux_cons (p : Option Nat) (c : Nat) (rest : List Nat) :
    unstuffingAux p (c :: rest) =
      if c = BYTES_STUFFING_START_BYTE then unstuffingAux (some c) rest
      else if p = some BYTES_STUFFING_START_BYTE then
        match BYTES_UNSTUFFING_MAP c with
        | none => none
        | some o => (unstuffingAux (some c) rest).map (fun t => o :: t)
      else (unstuffingAux (some c) rest).map (fun t => c :: t) := rfl

lemma unstuffingAux_state_irrel (l : List Nat) :
    ∀ p q : Option Nat,
      (p = some BYTES_STUFFING_START_BYTE ↔ q = some BYTES_STUFFING_START_BYTE) →
      unstuffingAux p l = unstuffingAux q l := by
  induction l with
  | nil => intro p q _; rfl
  | cons c rest ih =>
    intro p q hpq
    rw [unstuffingAux_cons, unstuffingAux_cons]
    by_cases hc : c = BYTES_STUFFING_START_BYTE
    · simp [hc]
    · by_cases hp : p = some BYTES_STUFFING_START_BYTE
      · have hq : q = some BYTES_STUFFING_START_BYTE := hpq.mp hp
        simp [hc, hp, hq]
      · have hq : q ≠ some BYTES_STUFFING_START_BYTE := fun h => hp (hpq.mpr h)
        simp [hc, hp, hq]

lemma unstuffingAux_escape_pair {c₀ b₀ : Nat} (p : Option Nat) (rest : List Nat)
    (hmap : BYTES_UNSTUFFING_MAP c₀ = some b₀) (hne : c₀ ≠ BYTES_STUFFING_START_BYTE) :
    unstuffingAux p (BYTES_STUFFING_START_BYTE :: c₀ :: rest) =
      (unstuffingAux (some c₀) rest).map (fun t => b₀ :: t) := by
  rw [unstuffingAux_cons, if_pos rfl, unstuffingAux_cons]
  simp [hne, hmap]

lemma unstuff_stuff_append (x : List Nat) :
    ∀ (p : Option Nat) (rest : List Nat), p ≠ some BYTES_STUFFING_START_BYTE →
      unstuffingAux p (stuffing x ++ rest) =
        (unstuffingAux none rest).map (fun t => x ++ t) := by
  induction x with
  | nil =>
    intro p rest hp
    rw [stuffing_nil, List.nil_append,
      unstuffingAux_state_irrel rest p none (by simp [hp])]
    cases unstuffingAux none rest <;> simp
  | cons b x' ih =>
    intro p rest hp
    rw [stuffing_cons, List.append_assoc]
    by_cases h1 : b = 0x7E
    · subst h1
      have hsb : stuffByte 0x7E = [BYTES_STUFFING_START_BYTE, 0x5E] := by rfl
      rw [hsb, List.cons_append, List.cons_append, List.nil_append,
        unstuffingAux_escape_pair p _ (by rfl) (by decide),
        ih (some 0x5E) rest (by decide)]
      cases unstuffingAux none rest <;> simp
    · by_cases h2 : b = 0x7D
      · subst h2
        have hsb : stuffByte 0x7D = [BYTES_STUFFING_START_BYTE, 0x5D] := by rfl
        rw [hsb, List.cons_append, List.cons_append, List.nil_append,
          unstuffingAux_escape_pair p _ (by rfl) (by decide),
          ih (some 0x5D) rest (by decide)]
        cases unstuffingAux none rest <;> simp
      · by_cases h3 : b = 0x11
        · subst h3
          have hsb : stuffByte 0x11 = [BYTES_STUFFING_START_BYTE, 0x31] := by rfl
          rw [hsb, List.cons_append, List.cons_append, List.nil_append,
            unstuffingAux_escape_pair p _ (by rfl) (by decide),
            ih (some 0x31) rest (by decide)]
          cases unstuffingAux none rest <;> simp
        · by_cases h4 : b = 0x13
          · subst h4
            have hsb : stuffByte 0x13 = [BYTES_STUFFING_START_BYTE, 0x33] := by rfl
            rw [hsb, List.cons_append, List.cons_append, List.nil_append,
              unstuffingAux_escape_pair p _ (by rfl) (by decide),
              ih (some 0x33) rest (by decide)]
            cases unstuffingAux none rest <;> simp
          · rw [stuffByte_plain h1 h2 h3 h4, List.cons_append, List.nil_append]
            have hb : b ≠ BYTES_STUFFING_START_BYTE := by
              unfold BYTES_STUFFING_START_BYTE; exact h2
            rw [unstuffingAux_cons, if_neg hb, if_neg hp,
              ih (some b) rest (by simp [hb])]
            cases unstuffingAux none rest <;> simp

lemma unstuff_stuff (x : List Nat) : unstuffing (stuffing x) = some x := by
  have h := unstuff_stuff_append x none [] (by simp)
  rw [List.append_nil] at h
  unfold unstuffing
  rw [h, unstuffingAux_nil]
  simp

lemma unstuffing_map_none_of_not_cont {c : Nat}
    (h : c ∉ [0x5E, 0x5D, 0x31, 0x33]) : BYTES_UNSTUFFING_MAP c = none := by
  simp only [List.mem_cons, List.mem_singleton, not_or] at h
  obtain ⟨h1, h2, h3, h4⟩ := h
  unfold BYTES_UNSTUFFING_MAP
  simp [h1, h2, h3, h4]

lemma unstuffingAux_bad_pair {c : Nat} (hc : c ≠ BYTES_STUFFING_START_BYTE)
    (hmap : BYTES_UNSTUFFING_MAP c = none) (r : List Nat) :
    ∀ (l : List Nat) (p : Option Nat),
      unstuffingAux p (l ++ BYTES_STUFFING_START_BYTE :: c :: r) = none := by
  intro l
  induction l with
  | nil =>
    intro p
    rw [List.nil_append, unstuffingAux_cons, if_pos rfl, unstuffingAux_cons,
      if_neg hc, if_pos rfl, hmap]
  | cons a l' ih =>
    intro p
    rw [List.cons_append, unstuffingAux_cons]
    by_cases ha : a = BYTES_STUFFING_START_BYTE
    · rw [if_pos ha, ih]
    · rw [if_neg ha]
      by_cases hp : p = some BYTES_STUFFING_START_BYTE
      · rw [if_pos hp]
        match hm : BYTES_UNSTUFFING_MAP a with
        | none => rfl
        | some o => rw [ih]; rfl
      · rw [if_neg hp, ih]; rfl

lemma stuffByte_not_reserved (b : Nat) :
    ∀ a ∈ stuffByte b, a ≠ 0x7E ∧ a ≠ 0x11 ∧ a ≠ 0x13 := by
  rw [stuffByte_eq_specEscape]
  unfold specEscape
  by_cases h1 : b = 0x7E
  · simp [h1]
  · by_cases h2 : b = 0x7D
    · simp [h2]
    · by_cases h3 : b = 0x11
      · simp [h1, h2, h3]
      · by_cases h4 : b = 0x13
        · simp [h1, h2, h3, h4]
        · simp only [h1, h2, h3, h4, if_false]
          intro a ha
          rw [List.mem_singleton] at ha
          subst ha
          exact ⟨h1, h3, h4⟩

lemma stuffing_mem_not_reserved (x : List Nat) :
    ∀ a ∈ stuffing x, a ≠ 0x7E ∧ a ≠ 0x11 ∧ a ≠ 0x13 := by
  induction x with
  | nil => simp [stuffing_nil]
  | cons b t ih =>
    rw [stuffing_cons]
    intro a ha
    rcases List.mem_append.mp ha with h | h
    · exact stuffByte_not_reserved b a h
    · exact ih a h

lemma stuffing_escape_followed (x : List Nat) :
    ∀ i, (stuffing x).get? i = some 0x7D →
      ∃ c, (stuffing x).get? (i + 1) = some c ∧ c ∈ [0x5E, 0x5D, 0x31, 0x33] := by
  induction x with
  | nil => intro i h; rw [stuffing_nil] at h; simp at h
  | cons b t ih =>
    intro i h
    rw [stuffing_cons] at h ⊢
    by_cases hb : b = 0x7E ∨ b = 0x7D ∨ b = 0x11 ∨ b = 0x13
    · have hsb : ∃ c₀, stuffByte b = [0x7D, c₀] ∧ c₀ ∈ [0x5E, 0x5D, 0x31, 0x33] := by
        rcases hb with h1 | h2 | h3 | h4
        · exact ⟨0x5E, by rw [h1]; rfl, by decide⟩
        · exact ⟨0x5D, by rw [h2]; rfl, by decide⟩
        · exact ⟨0x31, by rw [h3]; rfl, by decide⟩
        · exact ⟨0x33, by rw [h4]; rfl, by decide⟩
      obtain ⟨c₀, hsb, hc₀⟩ := hsb
      rw [hsb] at h ⊢
      match i with
      | 0 => exact ⟨c₀, rfl, hc₀⟩
      | 1 =>
        exfalso
        have : c₀ = 0x7D := by
          have := h
          simp only [List.get?] at this
          exact Option.some.inj this
        revert hc₀
        rw [this]
        decide
      | Nat.succ (Nat.succ j) =>
        have hlen : ([0x7D, c₀] : List Nat).length = 2 := rfl
        rw [List.get?_append_right (by simp), hlen] at h
        have h' : (stuffing t).get? j = some 0x7D := by
          convert h using 2 <;> omega
        obtain ⟨c, hc, hcmem⟩ := ih j h'
        refine ⟨c, ?_, hcmem⟩
        rw [List.get?_append_right (by simp), hlen]
        convert hc using 2 <;> omega
    · push_neg at hb
      obtain ⟨h1, h2, h3, h4⟩ := hb
      rw [stuffByte_plain h1 h2 h3 h4] at h ⊢
      match i with
      | 0 =>
        exfalso
        have : b = 0x7D := by
          simp only [List.get?] at h
          exact Option.some.inj h
        exact h2 this
      | Nat.succ j =>
        have hlen : ([b] : List Nat).length = 1 := rfl
        rw [List.get?_append_right (by simp), hlen] at h
        have h' : (stuffing t).get? j = some 0x7D := by
          convert h using 2 <;> omega
        obtain ⟨c, hc, hcmem⟩ := ih j h'
        refine ⟨c, ?_, hcmem⟩
        rw [List.get?_append_right (by simp), hlen]
        convert hc using 2 <;> omega

lemma commandOfCode_self : ∀ c ∈ COMMANDS, commandOfCode c.code = some c := by decide

lemma commands_code_ne_escape : ∀ c ∈ COMMANDS, c.code ≠ 0x7D := by decide

lemma getLast?_concat_getD (l : List Nat) (a d : Nat) :
    (l ++ [a]).getLast?.getD d = a := by
  rw [List.getLast?_concat]
  rfl

lemma dropLast_concat_eq (l : List Nat) (a : Nat) : (l ++ [a]).dropLast = l := by
  simp

lemma take_length_append (l r : List Nat) : (l ++ r).take l.length = l := by
  simpa using List.take_left l r

lemma unstuff_simulated_mid (code st L chk : Nat) (data : List Nat)
    (hcode : code ≠ 0x7D) (hst : st ≠ 0x7D) :
    unstuffing ([FRAME_SLAVE_ADR, code, st] ++ stuffing [L] ++ stuffing data ++ stuffing [chk]) =
      some ([FRAME_SLAVE_ADR, code, st, L] ++ data ++ [chk]) := by
  have hcode' : ¬ code = BYTES_STUFFING_START_BYTE := by
    unfold BYTES_STUFFING_START_BYTE; exact hcode
  have hst' : ¬ st = BYTES_STUFFING_START_BYTE := by
    unfold BYTES_STUFFING_START_BYTE; exact hst
  have h3 : unstuffingAux none (stuffing [chk]) = some [chk] := unstuff_stuff [chk]
  have h2 : unstuffingAux none (stuffing data ++ stuffing [chk]) =
      (unstuffingAux none (stuffing [chk])).map (fun t => data ++ t) :=
    unstuff_stuff_append data none _ (by simp)
  have h1 : unstuffingAux (some st) (stuffing [L] ++ (stuffing data ++ stuffing [chk])) =
      (unstuffingAux none (stuffing data ++ stuffing [chk])).map (fun t => [L] ++ t) :=
    unstuff_stuff_append [L] (some st) _ (by simp [hst'])
  show unstuffingAux none _ = _
  simp only [List.cons_append, List.nil_append, List.append_assoc]
  rw [unstuffingAux_cons, if_neg (by decide), if_neg (by decide),
    unstuffingAux_cons, if_neg hcode', if_neg (by decide),
    unstuffingAux_cons, if_neg hst', if_neg (by simp [hcode']),
    h1, h2, h3]
  simp

lemma misoStructural_simulated (command : Command) (data : List Nat)
    (hcmd : command ∈ COMMANDS) :
    misoStructural (SimulatedResponseFrame_get_frame_bytes command 0 data) =
      .ok ([FRAME_START, FRAME_SLAVE_ADR, command.code, 0, data.length] ++ data ++
        [checksum ([FRAME_SLAVE_ADR, command.code, 0, data.length] ++ data), FRAME_STOP]) := by
  have hcode : command.code ≠ 0x7D := commands_code_ne_escape command hcmd
  unfold SimulatedResponseFrame_get_frame_bytes
  set chk := checksum ([FRAME_SLAVE_ADR, command.code, 0, data.length] ++ data) with hchk
  set s1 := stuffing [data.length] with hs1
  set sd := stuffing data with hsd
  set sc := stuffing [chk] with hsc
  set raw := [FRAME_START, FRAME_SLAVE_ADR, command.code, (0 : Nat)] ++ s1 ++ sd ++ sc ++
    [FRAME_STOP] with hraw
  have hs1len : 1 ≤ s1.length := by
    rw [hs1]; exact le_trans (by simp) (stuffing_length_ge [data.length])
  have hsclen : 1 ≤ sc.length := by
    rw [hsc]; exact le_trans (by simp) (stuffing_length_ge [chk])
  have hrawlen : raw.length = s1.length + sd.length + sc.length + 5 := by
    rw [hraw]
    simp only [List.length_append, List.length_cons, List.length_nil]
    omega
  have hhead : raw.head?.getD 0 = FRAME_START := by rw [hraw]; rfl
  have hget1 : raw.getD 1 0 = FRAME_SLAVE_ADR := by rw [hraw]; rfl
  have hassoc : raw = ([FRAME_START, FRAME_SLAVE_ADR, command.code, 0] ++ s1 ++ sd ++ sc) ++
      [FRAME_STOP] := by
    rw [hraw]
  have hlast : raw.getLast?.getD 0 = FRAME_STOP := by
    rw [hassoc, getLast?_concat_getD]
  have hdrop : raw.drop 1 = ([FRAME_SLAVE_ADR, command.code, 0] ++ s1 ++ sd ++ sc) ++
      [FRAME_STOP] := by
    rw [hraw]; simp
  have hmid : (raw.drop 1).dropLast = [FRAME_SLAVE_ADR, command.code, 0] ++ s1 ++ sd ++ sc := by
    rw [hdrop, dropLast_concat_eq]
  have hunstuff : unstuffing ((raw.drop 1).dropLast) =
      some ([FRAME_SLAVE_ADR, command.code, 0, data.length] ++ data ++ [chk]) := by
    rw [hmid, hs1, hsd, hsc]
    exact unstuff_simulated_mid command.code 0 data.length chk data hcode (by decide)
  unfold misoStructural
  rw [hhead, hget1, hlast, hunstuff,
    if_neg (by omega), if_neg (by omega), if_neg (by simp), if_neg (by simp), if_neg (by simp)]
  simp [List.append_assoc]

lemma misoInterp_of_command {fb : List Nat} {cmd : Command}
    (hc : commandOfCode (fb.getD 2 0) = some cmd) :
    misoInterp fb = misoInterpCmd fb cmd := by
  unfold misoInterp
  rw [hc]

lemma misoInterp_simulated (command : Command) (data : List Nat)
    (hcmd : command ∈ COMMANDS) (hlen : data.length ≤ 255) :
    misoInterp ([FRAME_START, FRAME_SLAVE_ADR, command.code, 0, data.length] ++ data ++
        [checksum ([FRAME_SLAVE_ADR, command.code, 0, data.length] ++ data), FRAME_STOP]) =
      .ok ⟨command, 0, data⟩ := by
  set chk := checksum ([FRAME_SLAVE_ADR, command.code, 0, data.length] ++ data) with hchk
  set fb := [FRAME_START, FRAME_SLAVE_ADR, command.code, 0, data.length] ++ data ++
    [chk, FRAME_STOP] with hfb
  have hget2 : fb.getD 2 0 = command.code := by rw [hfb]; rfl
  have hcmdlookup : commandOfCode (fb.getD 2 0) = some command := by
    rw [hget2]; exact commandOfCode_self command hcmd
  have hget3 : fb.getD 3 0 = 0 := by rw [hfb]; rfl
  have hget4 : fb.getD 4 0 = data.length := by rw [hfb]; rfl
  have hlenfb : fb.length = data.length + 7 := by
    rw [hfb]
    simp only [List.length_append, List.length_cons, List.length_nil]
    omega
  have hdrop5 : fb.drop 5 = data ++ [chk, FRAME_STOP] := by rw [hfb]; simp
  have htake : (data ++ [chk, FRAME_STOP]).take data.length = data :=
    take_length_append data [chk, FRAME_STOP]
  have hassoc1 : fb = (([FRAME_START, FRAME_SLAVE_ADR, command.code, 0, data.length] ++ data) ++
      [chk]) ++ [FRAME_STOP] := by
    rw [hfb]; simp
  have hchkpos : fb.dropLast.getLast?.getD 0 = chk := by
    rw [hassoc1, dropLast_concat_eq, getLast?_concat_getD]
  have hdrop1 : fb.drop 1 = (([FRAME_SLAVE_ADR, command.code, 0, data.length] ++ data) ++
      [chk]) ++ [FRAME_STOP] := by
    rw [hfb]; simp
  have hsum : (fb.drop 1).dropLast.dropLast =
      [FRAME_SLAVE_ADR, command.code, 0, data.length] ++ data := by
    rw [hdrop1, dropLast_concat_eq, dropLast_concat_eq]
  have hstate2 : misoState2 fb = 0 := by
    unfold misoState2
    rw [hget3]
    simp
  rw [misoInterp_of_command hcmdlookup]
  unfold misoInterpCmd
  rw [hget3, hstate2, hget4, hlenfb, hdrop5, htake, hchkpos, hsum]
  rw [if_neg (by simp)]
  rw [if_neg (by simp)]
  rw [if_neg (by omega)]
  rw [if_neg (by push_cast; omega)]
  rw [if_neg (by simp [hchk])]

lemma misoDecode_of_structural {raw fb : List Nat} (h : misoStructural raw = .ok fb) :
    misoDecode raw = misoInterp fb := by
  unfold misoDecode
  rw [h]
  rfl

lemma misoDecode_simulated (command : Command) (data : List Nat)
    (hcmd : command ∈ COMMANDS) (hlen : data.length ≤ 255) :
    misoDecode (SimulatedResponseFrame_get_frame_bytes command 0 data) =
      .ok ⟨command, 0, data⟩ := by
  rw [misoDecode_of_structural (misoStructural_simulated command data hcmd)]
  exact misoInterp_simulated command data hcmd hlen

lemma low7_of_bit7_clear {st : Nat} (hb : st < 256) (h7 : st &&& 2 ^ 7 = 0) :
    st &&& (2 ^ 7 - 1) = st := by
  rw [Nat.and_pow_two_sub_one_eq_mod]
  rw [Nat.and_two_pow] at h7
  have ht : st.testBit 7 = false := by
    cases h : st.testBit 7
    · rfl
    · rw [h] at h7; simp at h7
  rw [Nat.testBit_to_div_mod] at ht
  simp only [decide_eq_false_iff_not] at ht
  have h2 : st / 2 ^ 7 % 2 = 0 := by omega
  have h128 : (2 : Nat) ^ 7 = 128 := by norm_num
  rw [h128] at h2 ⊢
  omega

lemma misoInterp_deviceError {fb : List Nat} {cmd : Command}
    (hc : commandOfCode (fb.getD 2 0) = some cmd)
    (h7 : fb.getD 3 0 &&& 2 ^ 7 ≠ 0) (hall : cmd ∉ statusAllowedCommands) :
    misoInterp fb = .error .deviceError := by
  rw [misoInterp_of_command hc]
  unfold misoInterpCmd
  rw [if_pos ⟨h7, hall⟩]

lemma misoInterp_notAllowed_bit7 {fb : List Nat} {cmd : Command}
    (hc : commandOfCode (fb.getD 2 0) = some cmd) (h7 : fb.getD 3 0 &&& 2 ^ 7 ≠ 0)
    (hall : cmd ∈ statusAllowedCommands) (h43 : fb.getD 3 0 &&& (2 ^ 7 - 1) = 0x43) :
    misoInterp fb = .error .commandNotAllowed := by
  have hs2 : misoState2 fb = 0x43 := by
    unfold misoState2
    rw [if_pos h7, h43]
  rw [misoInterp_of_command hc]
  unfold misoInterpCmd
  rw [if_neg (fun hcon => hcon.2 hall), hs2, if_pos (by omega), if_neg (by omega)]

lemma misoInterp_notAllowed_low {fb : List Nat} {cmd : Command}
    (hc : commandOfCode (fb.getD 2 0) = some cmd) (h7 : fb.getD 3 0 &&& 2 ^ 7 = 0)
    (h43 : fb.getD 3 0 = 0x43) :
    misoInterp fb = .error .commandNotAllowed := by
  have hs2 : misoState2 fb = 0x43 := by
    unfold misoState2
    rw [if_neg (fun hcon => hcon h7), h43]
  rw [misoInterp_of_command hc]
  unfold misoInterpCmd
  rw [if_neg (fun hcon => hcon.1 h7), hs2, if_pos (by omega), if_neg (by omega)]

lemma misoInterp_responseError_bit7 {fb : List Nat} {cmd : Command}
    (hc : commandOfCode (fb.getD 2 0) = some cmd) (h7 : fb.getD 3 0 &&& 2 ^ 7 ≠ 0)
    (hall : cmd ∈ statusAllowedCommands)
    (hnz : fb.getD 3 0 &&& (2 ^ 7 - 1) ≠ 0) (h43 : fb.getD 3 0 &&& (2 ^ 7 - 1) ≠ 0x43) :
    misoInterp fb =
      .error (.responseError (fb.getD 3 0 &&& (2 ^ 7 - 1))
        ((ERRORS (fb.getD 3 0 &&& (2 ^ 7 - 1))).getD "Unknown error")) := by
  have hs2 : misoState2 fb = fb.getD 3 0 &&& (2 ^ 7 - 1) := by
    unfold misoState2
    rw [if_pos h7]
  rw [misoInterp_of_command hc]
  unfold misoInterpCmd
  rw [if_neg (fun hcon => hcon.2 hall), hs2, if_pos hnz, if_pos h43]

lemma misoInterp_responseError_low {fb : List Nat} {cmd : Command}
    (hc : commandOfCode (fb.getD 2 0) = some cmd) (h7 : fb.getD 3 0 &&& 2 ^ 7 = 0)
    (hnz : fb.getD 3 0 ≠ 0) (h43 : fb.getD 3 0 ≠ 0x43) :
    misoInterp fb =
      .error (.responseError (fb.getD 3 0) ((ERRORS (fb.getD 3 0)).getD "Unknown error")) := by
  have hs2 : misoState2 fb = fb.getD 3 0 := by
    unfold misoState2
    rw [if_neg (fun hcon => hcon h7)]
  rw [misoInterp_of_command hc]
  unfold misoInterpCmd
  rw [if_neg (fun hcon => hcon.1 h7), hs2, if_pos hnz, if_pos h43]

lemma stuffing_eq_specStuff (x : List Nat) : stuffing x = specStuff x := by
  induction x with
  | nil => rfl
  | cons b t ih =>
    rw [stuffing_cons, stuffByte_eq_specEscape, ih]
    simp [specStuff]

lemma checksum_eq_specChk (code len : Nat) (data : List Nat) :
    checksum ([FRAME_SLAVE_ADR, code, len] ++ data) = specChk code len data := by
  unfold checksum specChk
  have h : ([FRAME_SLAVE_ADR, code, len] ++ data).sum =
      FRAME_SLAVE_ADR + code + len + data.sum := by
    simp [List.sum_append]
    ring
  rw [h]

/-- C1: the guard of `WriteAutoCleaningInterval.__init__` is written
`ac_interval_s >= 2 ^ 32`, but Python `^` is bitwise xor, so the bound is
34: the interval 34 — positive and well below 2 to the 32 — is rejected with
a configuration error, while 33 is accepted, contradicting the claim that
construction succeeds for every `0 < s < 2 ** 32`. -/
theorem writeAutoCleaningInterval_xor_bug :
    pythonTwoCaretThirtyTwo = 34 ∧
    WriteAutoCleaningInterval_init 34 = .error .configurationError ∧
    (0 : Int) < 34 ∧ (34 : Int) < 2 ^ 32 ∧
    WriteAutoCleaningInterval_init 33 =
      .ok (CMD_SET_AUTO_CLEAN, [0x00, 0x00, 0x00, 0x00, 33]) ∧
    WriteAutoCleaningInterval_init 0 = .error .configurationError ∧
    WriteAutoCleaningInterval_init (2 ^ 32) = .error .configurationError :=
  ⟨rfl, rfl, by decide, by decide, rfl, rfl, by rfl⟩

/-- C2: `CommandExecution.run` returns from the write-timeout `except`
branch without calling `self._device_lock.release()`, so the transport lock
is still held after the unit reaches its terminal state on a write timeout;
on the read-timeout, decode-failure and success outcomes the lock is
released as the specification claims. -/
theorem commandExecution_run_lock_leak :
    (CommandExecution_run ⟨.timeout, .timeout⟩).lock_held_at_end = true ∧
    (CommandExecution_run ⟨.timeout, .ok []⟩).lock_held_at_end = true ∧
    (CommandExecution_run ⟨.ok, .timeout⟩).lock_held_at_end = false ∧
    (CommandExecution_run ⟨.ok, .ok []⟩).lock_held_at_end = false ∧
    (CommandExecution_run
      ⟨.ok, .ok (SimulatedResponseFrame_get_frame_bytes CMD_START 0 [])⟩).lock_held_at_end =
      false ∧
    (CommandExecution_run
      ⟨.ok, .ok (SimulatedResponseFrame_get_frame_bytes CMD_START 0 [])⟩).error = none :=
  ⟨rfl, rfl, rfl, rfl, by rfl, by rfl⟩

/-- C3: for every byte sequence `x` — the empty sequence and sequences
containing the reserved bytes 0x7E, 0x7D, 0x11, 0x13 included —
`unstuffing (stuffing x) = some x`. -/
theorem unstuffing_stuffing_roundtrip (x : List Nat) :
    unstuffing (stuffing x) = some x :=
  unstuff_stuff x

/-- C4 counterexample: a trailing escape byte and an escape byte followed by
another escape byte do NOT make `unstuffing` fail — both escape bytes are
silently dropped and a result is returned — refuting the claim that every
escape byte not followed by one of the four continuation bytes yields a
decode error. -/
theorem unstuffing_trailing_escape_no_error :
    unstuffing [0x7D] = some [] ∧ unstuffing [0x7D, 0x7D] = some [] ∧
    unstuffing [0x00, 0x7D] = some [0x00] := by
  refine ⟨rfl, rfl, rfl⟩

/-- C4 amended: `unstuffing` fails with a decode error whenever an escape
byte 0x7D is immediately followed by a byte that is neither another escape
byte nor one of the four recognized continuation bytes 0x5E, 0x5D, 0x31,
0x33; a trailing escape byte, or an escape byte followed by another escape
byte, is dropped without error. -/
theorem unstuffing_fails_on_bad_escape (l r : List Nat) (c : Nat)
    (hc : c ≠ 0x7D) (hcont : c ∉ [0x5E, 0x5D, 0x31, 0x33]) :
    unstuffing (l ++ 0x7D :: c :: r) = none := by
  show unstuffingAux none _ = none
  have h7D : (0x7D : Nat) = BYTES_STUFFING_START_BYTE := rfl
  rw [h7D]
  exact unstuffingAux_bad_pair hc (unstuffing_map_none_of_not_cont hcont) r l none

/-- Witness for the amended C4 theorem at a concrete input. -/
theorem unstuffing_fails_on_bad_escape_witness :
    (0x42 : Nat) ≠ 0x7D ∧ ((0x42 : Nat) ∉ [0x5E, 0x5D, 0x31, 0x33]) ∧
    unstuffing ([0x00] ++ 0x7D :: 0x42 :: [0x01]) = none :=
  ⟨by decide, by decide,
   unstuffing_fails_on_bad_escape [0x00] [0x01] 0x42 (by decide) (by decide)⟩

/-- C5 counterexample: decoding the outbound encoder's own bytes fails at
these inputs, because the MISO layout carries a state byte that the MOSI
layout does not: with an empty payload the MOSI frame is six bytes (below
the seven-byte minimum), and with a one-byte payload the length byte lands
in the decoder's state position and is reported as an error code. -/
theorem misoDecode_of_mosi_frame_fails :
    misoDecode (MOSIFrame.get_frame CMD_START []) =
      .error (.responseFrameError "too short") ∧
    misoDecode (MOSIFrame.get_frame CMD_START [0x01]) =
      .error (.responseError 0x01
        "Wrong data length for this command (too much or little data)") := by
  refine ⟨by rfl, by rfl⟩

/-- C5 amended: for every catalog command and payload of length 0 to 255,
decoding the inbound-layout encoding of that command and payload with a
zero status byte — as produced by the repository's own
`SimulatedResponseFrame.get_frame_bytes` — succeeds and yields back the same
command and the same payload bytes. -/
theorem misoDecode_response_frame_roundtrip (command : Command) (data : List Nat)
    (hcmd : command ∈ COMMANDS) (hlen : data.length ≤ 255) :
    misoDecode (SimulatedResponseFrame_get_frame_bytes command 0 data) =
      .ok ⟨command, 0, data⟩ :=
  misoDecode_simulated command data hcmd hlen

/-- Witness for the amended C5 theorem: a payload containing all four
reserved byte values round-trips through the inbound frame decoder. -/
theorem misoDecode_response_frame_roundtrip_witness :
    CMD_SET_AUTO_CLEAN ∈ COMMANDS ∧ ([0x7E, 0x7D, 0x11, 0x13] : List Nat).length ≤ 255 ∧
    misoDecode (SimulatedResponseFrame_get_frame_bytes CMD_SET_AUTO_CLEAN 0
        [0x7E, 0x7D, 0x11, 0x13]) =
      .ok ⟨CMD_SET_AUTO_CLEAN, 0, [0x7E, 0x7D, 0x11, 0x13]⟩ :=
  ⟨by decide, by decide,
   misoDecode_response_frame_roundtrip CMD_SET_AUTO_CLEAN [0x7E, 0x7D, 0x11, 0x13]
     (by decide) (by decide)⟩

/-- C6: for every command and payload of length at most 255,
`MOSIFrame.get_frame` returns exactly `0x7E, 0x00, command code (unstuffed),
stuffed length byte, stuffed payload, stuffed checksum, 0x7E`, where the
stuffing is exactly the specification's escape mapping (`specEscape`) and
the checksum is `0xFF - ((ADDR + CMD + LEN + sum DATA) mod 256)` over the
un-stuffed bytes (`specChk`). -/
theorem mosi_frame_wire_format (command : Command) (data : List Nat)
    (hlen : data.length ≤ 255) :
    MOSIFrame.get_frame command data =
      [0x7E, 0x00, command.code] ++ specStuff [data.length] ++ specStuff data ++
        specStuff [specChk command.code data.length data] ++ [0x7E] := by
  unfold MOSIFrame.get_frame
  rw [stuffing_eq_specStuff, stuffing_eq_specStuff, stuffing_eq_specStuff,
    checksum_eq_specChk]
  rfl

/-- Witness for the C6 theorem at a concrete command and payload. -/
theorem mosi_frame_wire_format_witness :
    ([0x7E, 0x11, 0x42] : List Nat).length ≤ 255 ∧
    MOSIFrame.get_frame CMD_CLEAN [0x7E, 0x11, 0x42] =
      [0x7E, 0x00, CMD_CLEAN.code] ++ specStuff [([0x7E, 0x11, 0x42] : List Nat).length] ++
        specStuff [0x7E, 0x11, 0x42] ++
        specStuff [specChk CMD_CLEAN.code ([0x7E, 0x11, 0x42] : List Nat).length
          [0x7E, 0x11, 0x42]] ++ [0x7E] :=
  ⟨by decide, mosi_frame_wire_format CMD_CLEAN [0x7E, 0x11, 0x42] (by decide)⟩

/-- C7: for every inbound frame whose structural phase succeeds with
`frame_bytes` `fb` and whose command byte resolves to a catalog command:
when the status byte has bit 7 set and the command is outside the allowed
status-reporting set, decoding raises the device error; when the status
byte's low 7 bits equal 0x43 (and no device error fires), decoding raises
the command-rejected error; for any other non-zero low-7-bits value,
decoding raises a response error carrying that code and the reason text
resolved from the fixed `ERRORS` table with the `"Unknown error"` fallback. -/
theorem misoDecode_status_interpretation (raw fb : List Nat) (cmd : Command)
    (hs : misoStructural raw = .ok fb)
    (hc : commandOfCode (fb.getD 2 0) = some cmd)
    (hbyte : fb.getD 3 0 < 256) :
    (fb.getD 3 0 &&& 2 ^ 7 ≠ 0 → cmd ∉ statusAllowedCommands →
      misoDecode raw = .error .deviceError) ∧
    (fb.getD 3 0 &&& 2 ^ 7 ≠ 0 → cmd ∈ statusAllowedCommands →
      fb.getD 3 0 &&& (2 ^ 7 - 1) = 0x43 → misoDecode raw = .error .commandNotAllowed) ∧
    (fb.getD 3 0 &&& 2 ^ 7 = 0 → fb.getD 3 0 &&& (2 ^ 7 - 1) = 0x43 →
      misoDecode raw = .error .commandNotAllowed) ∧
    (fb.getD 3 0 &&& 2 ^ 7 ≠ 0 → cmd ∈ statusAllowedCommands →
      fb.getD 3 0 &&& (2 ^ 7 - 1) ≠ 0 → fb.getD 3 0 &&& (2 ^ 7 - 1) ≠ 0x43 →
      misoDecode raw = .error (.responseError (fb.getD 3 0 &&& (2 ^ 7 - 1))
        ((ERRORS (fb.getD 3 0 &&& (2 ^ 7 - 1))).getD "Unknown error"))) ∧
    (fb.getD 3 0 &&& 2 ^ 7 = 0 → fb.getD 3 0 &&& (2 ^ 7 - 1) ≠ 0 →
      fb.getD 3 0 &&& (2 ^ 7 - 1) ≠ 0x43 →
      misoDecode raw = .error (.responseError (fb.getD 3 0 &&& (2 ^ 7 - 1))
        ((ERRORS (fb.getD 3 0 &&& (2 ^ 7 - 1))).getD "Unknown error"))) := by
  rw [misoDecode_of_structural hs]
  refine ⟨fun h7 hall => misoInterp_deviceError hc h7 hall,
    fun h7 hall h43 => misoInterp_notAllowed_bit7 hc h7 hall h43,
    fun h7 h43 => misoInterp_notAllowed_low hc h7
      ((low7_of_bit7_clear hbyte h7).symm.trans h43),
    fun h7 hall hnz h43 => misoInterp_responseError_bit7 hc h7 hall hnz h43,
    fun h7 hnz h43 => ?_⟩
  have hl : fb.getD 3 0 &&& (2 ^ 7 - 1) = fb.getD 3 0 := low7_of_bit7_clear hbyte h7
  rw [hl] at hnz h43 ⊢
  exact misoInterp_responseError_low hc h7 hnz h43

/-- Witness for the C7 theorem: concrete frames hitting the device-error,
command-rejected and response-error branches. -/
theorem misoDecode_status_interpretation_witness :
    misoDecode [0x7E, 0x00, 0x00, 0x80, 0x00, 0x7F, 0x7E] = .error .deviceError ∧
    misoDecode [0x7E, 0x00, 0xD2, 0xC3, 0x00, 0x6A, 0x7E] = .error .commandNotAllowed ∧
    misoDecode [0x7E, 0x00, 0x00, 0x02, 0x00, 0x7D, 0x5E, 0x7E] =
      .error (.responseError 0x02 "Unknown command") :=
  ⟨(misoDecode_status_interpretation [0x7E, 0x00, 0x00, 0x80, 0x00, 0x7F, 0x7E]
      [0x7E, 0x00, 0x00, 0x80, 0x00, 0x7F, 0x7E] CMD_START (by rfl) (by rfl)
      (by decide)).1 (by decide) (by decide),
   (misoDecode_status_interpretation [0x7E, 0x00, 0xD2, 0xC3, 0x00, 0x6A, 0x7E]
      [0x7E, 0x00, 0xD2, 0xC3, 0x00, 0x6A, 0x7E] CMD_STATUS (by rfl) (by rfl)
      (by decide)).2.1 (by decide) (by decide) (by decide),
   ((misoDecode_status_interpretation [0x7E, 0x00, 0x00, 0x02, 0x00, 0x7D, 0x5E, 0x7E]
      [0x7E, 0x00, 0x00, 0x02, 0x00, 0x7E, 0x7E] CMD_START (by rfl) (by rfl)
      (by decide)).2.2.2.2 (by decide) (by decide) (by decide))⟩

/-- C8: when `measure` hits the no-new-measurement failure on its first read,
it issues exactly one start-measurement; if that start is rejected with
command-not-allowed, the original no-new-measurement error is re-raised
unchanged and no further read happens; if the start succeeds, exactly one
follow-up read is issued. -/
theorem measure_noNew_recovery (fuel : Nat) (fw : Nat × Nat) (rest : List ReadResult)
    (s : ExecResult) (starts : List ExecResult) (wakes : List ExecResult)
    (hfw : version_lt fw (1, 0) = false) :
    (s = .notAllowed →
      measure (fuel + 1) ⟨fw, .noNew :: rest, s :: starts, wakes⟩ =
        (.errNoNew, [.read, .start])) ∧
    (∀ r2 rest2, rest = r2 :: rest2 → s = .ok →
      (measure (fuel + 1) ⟨fw, .noNew :: rest, s :: starts, wakes⟩).2 =
        [.read, .start, .read]) := by
  constructor
  · intro hsv
    subst hsv
    simp [measure, CMD_MEASURE, CMD_START, hfw]
  · intro r2 rest2 hrest hsv
    subst hsv
    subst hrest
    cases r2 <;> simp [measure, CMD_MEASURE, CMD_START, hfw]

/-- Witness for the C8 theorem at concrete device scripts. -/
theorem measure_noNew_recovery_witness :
    measure 1 ⟨(2, 2), [.noNew, .meas 7], [.notAllowed], []⟩ =
      (.errNoNew, [.read, .start]) ∧
    (measure 1 ⟨(2, 2), [.noNew, .meas 7], [.ok], []⟩).2 = [.read, .start, .read] :=
  ⟨(measure_noNew_recovery 0 (2, 2) [.meas 7] .notAllowed [] [] (by decide)).1 rfl,
   (measure_noNew_recovery 0 (2, 2) [.meas 7] .ok [] [] (by decide)).2 (.meas 7) [] rfl rfl⟩

/-- C9: constructing an outbound frame with a payload of 256 bytes or more
always fails with the construction error, and a payload of exactly 255 bytes
always succeeds. -/
theorem mosi_init_length_bound (command : Command) (data : List Nat) :
    (256 ≤ data.length → MOSIFrame.init command data = .error .valueError) ∧
    (data.length = 255 → MOSIFrame.init command data = .ok (command, data)) := by
  unfold MOSIFrame.init
  constructor
  · intro h
    rw [if_pos (by omega)]
  · intro h
    rw [if_neg (by omega)]

/-- Witness for the C9 theorem at 256- and 255-byte payloads. -/
theorem mosi_init_length_bound_witness :
    MOSIFrame.init CMD_START (List.replicate 256 0) = .error .valueError ∧
    MOSIFrame.init CMD_START (List.replicate 255 7) =
      .ok (CMD_START, List.replicate 255 7) :=
  ⟨(mosi_init_length_bound CMD_START (List.replicate 256 0)).1 (by simp),
   (mosi_init_length_bound CMD_START (List.replicate 255 7)).2 (by simp)⟩

/-- C10: the output of `stuffing` never contains the frame delimiter 0x7E
nor the link-control bytes 0x11 and 0x13, and every occurrence of the escape
byte 0x7D in it is immediately followed by one of the four continuation
bytes 0x5E, 0x5D, 0x31, 0x33 (in particular a stuffed payload never ends in
a dangling escape byte). -/
theorem stuffing_no_frame_delimiters (x : List Nat) :
    (∀ a ∈ stuffing x, a ≠ 0x7E ∧ a ≠ 0x11 ∧ a ≠ 0x13) ∧
    (∀ i, (stuffing x).get? i = some 0x7D →
      ∃ c, (stuffing x).get? (i + 1) = some c ∧ c ∈ [0x5E, 0x5D, 0x31, 0x33]) :=
  ⟨stuffing_mem_not_reserved x, stuffing_escape_followed x⟩

/-- Witness for the C10 theorem at a concrete payload with reserved bytes. -/
theorem stuffing_no_frame_delimiters_witness :
    ((stuffing [0x7E, 0x11]).get? 0 = some 0x7D) ∧
    (∃ c, (stuffing [0x7E, 0x11]).get? 1 = some c ∧ c ∈ [0x5E, 0x5D, 0x31, 0x33]) ∧
    (∀ a ∈ stuffing [0x7E, 0x11], a ≠ 0x7E ∧ a ≠ 0x11 ∧ a ≠ 0x13) :=
  ⟨by decide, (stuffing_no_frame_delimiters [0x7E, 0x11]).2 0 (by decide),
   (stuffing_no_frame_delimiters [0x7E, 0x11]).1⟩

end SPS30

